import Mathlib

/-!
Shallow embedding of `src/phase1/mediaahare-complete/ansible/files/fastapi_hello/main.py`,
a minimal FastAPI service with routes `/`, `/health`, `/metadata`, `/ready` and a
global exception handler.

Modelling choices:
* The process environment (`os.environ`) is a function `String → Option String`;
  `os.getenv name default` is `(environ name).getD default`.
* Wall-clock readings of `time.time()` are rationals (real arithmetic modelled over `ℚ`).
* `datetime.utcnow()` readings are `Datetime` records; `Datetime.isoformat` models
  CPython's `datetime.isoformat` ("YYYY-MM-DDTHH:MM:SS[.ffffff]", zero padded,
  fractional part omitted exactly when `microsecond = 0`).
* Python's `round(x, 2)` (round half to even) is `round2`, built on `roundHalfEven`.
* Ambient per-process state (environment snapshot, `START_TIME`) is a `StartupState`;
  ambient per-request state (clock, UTC clock, OS hostname) is a `RequestEnv`.
* JSON bodies are `Json` values; Python dict literals become ordered field lists.
-/

/-- A reading of `datetime.utcnow()`: a naive (timezone-free) datetime. -/
structure Datetime where
  year : Nat
  month : Nat
  day : Nat
  hour : Nat
  minute : Nat
  second : Nat
  microsecond : Nat
deriving DecidableEq, Repr

/-- JSON values, as far as this service produces them: strings, numbers and
objects with ordered fields (Python dicts keep insertion order). -/
inductive Json where
  | str : String → Json
  | num : ℚ → Json
  | obj : List (String × Json) → Json

/-- Field lookup on a JSON object, `none` on other values or a missing key. -/
def Json.getField? : Json → String → Option Json
  | .obj fields, k => (fields.find? (fun p => p.1 == k)).map (fun p => p.2)
  | _, _ => none

/-- The ordered key list of a JSON object (empty for non-objects). -/
def Json.keys : Json → List String
  | .obj fields => fields.map (fun p => p.1)
  | _ => []

/-- `os.getenv name dflt` over an environment snapshot. -/
def os_getenv (environ : String → Option String) (name : String) (dflt : String) : String :=
  (environ name).getD dflt

/-- Line 13: `APP_VERSION = os.getenv("APP_VERSION", "1.0.0")`. -/
def APP_VERSION (environ : String → Option String) : String :=
  os_getenv environ "APP_VERSION" "1.0.0"

/-- Line 14: `ENVIRONMENT = os.getenv("ENVIRONMENT", "development")`. -/
def ENVIRONMENT (environ : String → Option String) : String :=
  os_getenv environ "ENVIRONMENT" "development"

/-- Line 15: `CLOUD_PROVIDER = os.getenv("CLOUD_PROVIDER", "unknown")`. -/
def CLOUD_PROVIDER (environ : String → Option String) : String :=
  os_getenv environ "CLOUD_PROVIDER" "unknown"

/-- Process-wide state fixed at import time: the environment snapshot the three
`os.getenv` calls read, and `START_TIME = time.time()` (line 32). -/
structure StartupState where
  environ : String → Option String
  startTime : ℚ

/-- Ambient state observed during one request: the `time.time()` reading, the
`datetime.utcnow()` reading, and the OS hostname `socket.gethostname()` returns. -/
structure RequestEnv where
  nowTime : ℚ
  utcNow : Datetime
  hostname : String

/-- The digit character of `n % 10`. -/
def digitChar (n : Nat) : Char :=
  match n % 10 with
  | 0 => '0'
  | 1 => '1'
  | 2 => '2'
  | 3 => '3'
  | 4 => '4'
  | 5 => '5'
  | 6 => '6'
  | 7 => '7'
  | 8 => '8'
  | _ => '9'

/-- `%02d` rendering (faithful for `n < 100`). -/
def pad2 (n : Nat) : List Char :=
  [digitChar (n / 10), digitChar n]

/-- `%04d` rendering (faithful for `n < 10000`). -/
def pad4 (n : Nat) : List Char :=
  [digitChar (n / 1000), digitChar (n / 100), digitChar (n / 10), digitChar n]

/-- `%06d` rendering (faithful for `n < 1000000`). -/
def pad6 (n : Nat) : List Char :=
  [digitChar (n / 100000), digitChar (n / 10000), digitChar (n / 1000),
   digitChar (n / 100), digitChar (n / 10), digitChar n]

/-- CPython `datetime.isoformat` for a naive datetime:
`YYYY-MM-DDTHH:MM:SS`, plus `.ffffff` exactly when `microsecond ≠ 0`. -/
def Datetime.isoformat (d : Datetime) : String :=
  ⟨pad4 d.year ++ '-' :: pad2 d.month ++ '-' :: pad2 d.day ++
   'T' :: pad2 d.hour ++ ':' :: pad2 d.minute ++ ':' :: pad2 d.second ++
   (if d.microsecond = 0 then [] else '.' :: pad6 d.microsecond)⟩

/-- Whether a string ends in an ISO-8601 timezone designator: a trailing `Z`,
or a `±HH:MM` offset (so the character six places from the end is `+` or `-`). -/
def hasTzOffsetSuffix (s : String) : Bool :=
  (s.data.getD (s.data.length - 1) ' ' == 'Z') ||
  (decide (6 ≤ s.data.length) &&
    ((s.data.getD (s.data.length - 6) ' ' == '+') ||
     (s.data.getD (s.data.length - 6) ' ' == '-')))

/-- Round half to even to an integer (Python's `round` tie-breaking). -/
def roundHalfEven (x : ℚ) : ℤ :=
  if x - ⌊x⌋ < 1 / 2 then ⌊x⌋
  else if (1 : ℚ) / 2 < x - ⌊x⌋ then ⌊x⌋ + 1
  else if ⌊x⌋ % 2 = 0 then ⌊x⌋ else ⌊x⌋ + 1

/-- Python's `round(x, 2)`: round half to even at two decimal places. -/
def round2 (x : ℚ) : ℚ :=
  ((roundHalfEven (x * 100) : ℤ) : ℚ) / 100

/-- Lines 23–30: the `HealthResponse` pydantic model. -/
structure HealthResponse where
  status : String
  timestamp : String
  hostname : String
  environment : String
  cloud_provider : String
  version : String
  uptime_seconds : ℚ

/-- Serialization of a `HealthResponse`, fields in declaration order. -/
def HealthResponse.toJson (h : HealthResponse) : Json :=
  .obj [("status", .str h.status), ("timestamp", .str h.timestamp),
        ("hostname", .str h.hostname), ("environment", .str h.environment),
        ("cloud_provider", .str h.cloud_provider), ("version", .str h.version),
        ("uptime_seconds", .num h.uptime_seconds)]

/-- Lines 34–41: the `/` handler. -/
def root (st : StartupState) : Json :=
  .obj [("message", .str "Welcome to MediaShare API"),
        ("version", .str (APP_VERSION st.environ)),
        ("docs", .str "/docs"),
        ("health", .str "/health")]

/-- Lines 43–53: the `/health` handler. -/
def health_check (st : StartupState) (req : RequestEnv) : HealthResponse :=
  { status := "healthy"
    timestamp := req.utcNow.isoformat
    hostname := req.hostname
    environment := ENVIRONMENT st.environ
    cloud_provider := CLOUD_PROVIDER st.environ
    version := APP_VERSION st.environ
    uptime_seconds := round2 (req.nowTime - st.startTime) }

/-- Lines 55–62: the `/metadata` handler. -/
def instance_metadata (st : StartupState) (req : RequestEnv) : Json :=
  .obj [("hostname", .str req.hostname),
        ("environment", .str (ENVIRONMENT st.environ)),
        ("cloud_provider", .str (CLOUD_PROVIDER st.environ)),
        ("version", .str (APP_VERSION st.environ))]

/-- Lines 64–66: the `/ready` handler. -/
def readiness_check : Json :=
  .obj [("status", .str "ready")]

/-- A `JSONResponse`: status code plus JSON content. -/
structure JSONResponse where
  status_code : Nat
  content : Json

/-- Lines 68–77: the global exception handler. The exception is modelled by its
message `str(exc)`. -/
def global_exception_handler (req : RequestEnv) (exc : String) : JSONResponse :=
  { status_code := 500
    content := .obj [("error", .str "Internal Server Error"),
                     ("detail", .str exc),
                     ("timestamp", .str req.utcNow.isoformat)] }

/-- The four registered routes. -/
inductive Route where
  | root
  | health
  | metadata
  | ready
deriving DecidableEq, Repr

/-- One request through the app: if the handler raised (`raised = some msg`),
the global exception handler answers with a 500; otherwise the route's handler
answers with FastAPI's default status 200. Totality of this function is the
model of "the process does not crash". -/
def app_handle (st : StartupState) (req : RequestEnv) (route : Route)
    (raised : Option String) : Nat × Json :=
  match raised with
  | some exc => ((global_exception_handler req exc).status_code,
                 (global_exception_handler req exc).content)
  | none =>
    match route with
    | .root => (200, root st)
    | .health => (200, (health_check st req).toJson)
    | .metadata => (200, instance_metadata st req)
    | .ready => (200, readiness_check)

/-! ## Helper lemmas about rounding and the timestamp format -/

lemma roundHalfEven_bounds (x : ℚ) : ⌊x⌋ ≤ roundHalfEven x ∧ roundHalfEven x ≤ ⌊x⌋ + 1 := by
  unfold roundHalfEven; split_ifs <;> omega

lemma roundHalfEven_mono {x y : ℚ} (h : x ≤ y) : roundHalfEven x ≤ roundHalfEven y := by
  rcases lt_or_eq_of_le (Int.floor_mono h) with hf | hf
  · have h1 := (roundHalfEven_bounds x).2
    have h2 := (roundHalfEven_bounds y).1
    omega
  · have hgq : ((⌊x⌋ : ℤ) : ℚ) = ((⌊y⌋ : ℤ) : ℚ) := by rw [hf]
    unfold roundHalfEven
    split_ifs <;> first | omega | (exfalso; linarith)

lemma roundHalfEven_nonneg {x : ℚ} (h : 0 ≤ x) : 0 ≤ roundHalfEven x := by
  have h1 := (roundHalfEven_bounds x).1
  have h2 : 0 ≤ ⌊x⌋ := Int.floor_nonneg.mpr h
  omega

lemma round2_nonneg {x : ℚ} (h : 0 ≤ x) : 0 ≤ round2 x := by
  unfold round2
  have h1 : (0 : ℤ) ≤ roundHalfEven (x * 100) := roundHalfEven_nonneg (by positivity)
  have h2 : (0 : ℚ) ≤ ((roundHalfEven (x * 100) : ℤ) : ℚ) := by exact_mod_cast h1
  linarith

lemma round2_mono {x y : ℚ} (h : x ≤ y) : round2 x ≤ round2 y := by
  unfold round2
  have hm : roundHalfEven (x * 100) ≤ roundHalfEven (y * 100) :=
    roundHalfEven_mono (by linarith)
  have h2 : ((roundHalfEven (x * 100) : ℤ) : ℚ) ≤ ((roundHalfEven (y * 100) : ℤ) : ℚ) := by
    exact_mod_cast hm
  linarith

lemma digitChar_ne_Z (n : Nat) : (digitChar n == 'Z') = false := by
  unfold digitChar; split <;> rfl

lemma digitChar_ne_plus (n : Nat) : (digitChar n == '+') = false := by
  unfold digitChar; split <;> rfl

lemma digitChar_ne_minus (n : Nat) : (digitChar n == '-') = false := by
  unfold digitChar; split <;> rfl

/-- The isoformat rendering of a naive datetime never carries a timezone
designator: it ends in a digit, and the character six places from the end is a
digit or `:`, never `+`, `-` or a trailing `Z`. -/
lemma isoformat_no_tz (d : Datetime) : hasTzOffsetSuffix d.isoformat = false := by
  unfold Datetime.isoformat hasTzOffsetSuffix pad4 pad2 pad6
  by_cases hm : d.microsecond = 0 <;>
    simp [hm, digitChar_ne_Z, digitChar_ne_plus, digitChar_ne_minus, List.getD]

/-! ## Concrete states used by the witness theorems -/

/-- A concrete environment snapshot: only `ENVIRONMENT` is set. -/
def environ0 : String → Option String :=
  fun name => if name = "ENVIRONMENT" then some "staging" else none

/-- A concrete startup state. -/
def st0 : StartupState :=
  { environ := environ0, startTime := 100 }

/-- A concrete `datetime.utcnow()` reading. -/
def dt0 : Datetime :=
  ⟨2026, 10, 12, 3, 4, 5, 0⟩

/-- A concrete request state. -/
def req0 : RequestEnv :=
  { nowTime := 102.5, utcNow := dt0, hostname := "host-a" }

/-- A later concrete request state with a different OS hostname. -/
def req1 : RequestEnv :=
  { nowTime := 103, utcNow := dt0, hostname := "host-b" }

/-! ## Claim theorems -/

/-- Claim C1: every `/health` response carries `uptime_seconds` equal to
`call_time - start_time` rounded to two decimal places, and this value is
non-negative whenever the clock at call time is not earlier than at startup. -/
theorem health_uptime_correct (st : StartupState) (q : RequestEnv)
    (h : st.startTime ≤ q.nowTime) :
    (health_check st q).uptime_seconds = round2 (q.nowTime - st.startTime) ∧
    0 ≤ (health_check st q).uptime_seconds := by
  exact ⟨rfl, round2_nonneg (by linarith)⟩

/-- Witness for C1 at a concrete startup and request state. -/
theorem health_uptime_correct_witness :
    st0.startTime ≤ req0.nowTime ∧
    ((health_check st0 req0).uptime_seconds = round2 (req0.nowTime - st0.startTime) ∧
     0 ≤ (health_check st0 req0).uptime_seconds) := by
  have h : st0.startTime ≤ req0.nowTime := by norm_num [st0, req0]
  exact ⟨h, health_uptime_correct st0 req0 h⟩

/-- Claim C4: across two `/health` calls in one process lifetime whose clock
readings are ordered, `uptime_seconds` is monotonically non-decreasing. -/
theorem health_uptime_mono (st : StartupState) (q1 q2 : RequestEnv)
    (h : q1.nowTime ≤ q2.nowTime) :
    (health_check st q1).uptime_seconds ≤ (health_check st q2).uptime_seconds := by
  exact round2_mono (by linarith)

/-- Witness for C4 at two concrete successive requests. -/
theorem health_uptime_mono_witness :
    req0.nowTime ≤ req1.nowTime ∧
    (health_check st0 req0).uptime_seconds ≤ (health_check st0 req1).uptime_seconds := by
  have h : req0.nowTime ≤ req1.nowTime := by norm_num [req0, req1]
  exact ⟨h, health_uptime_mono st0 req0 req1 h⟩

/-- Claim C3: `/health` and `/metadata` responses from the same process agree on
`environment`, `cloud_provider` and `version`, all equal to the startup reads of
the `ENVIRONMENT`, `CLOUD_PROVIDER` and `APP_VERSION` environment variables
(with defaults when unset). -/
theorem config_fields_consistent (st : StartupState) (q1 q2 : RequestEnv) :
    (health_check st q1).environment = ENVIRONMENT st.environ ∧
    (health_check st q1).cloud_provider = CLOUD_PROVIDER st.environ ∧
    (health_check st q1).version = APP_VERSION st.environ ∧
    (instance_metadata st q2).getField? "environment" =
      some (Json.str (ENVIRONMENT st.environ)) ∧
    (instance_metadata st q2).getField? "cloud_provider" =
      some (Json.str (CLOUD_PROVIDER st.environ)) ∧
    (instance_metadata st q2).getField? "version" =
      some (Json.str (APP_VERSION st.environ)) := by
  exact ⟨rfl, rfl, rfl, rfl, rfl, rfl⟩

/-- Claim C5: each configuration value takes its default when the environment
variable is unset, and the variable's string value when it is set. -/
theorem env_defaults (environ : String → Option String) :
    (environ "APP_VERSION" = none → APP_VERSION environ = "1.0.0") ∧
    (∀ v, environ "APP_VERSION" = some v → APP_VERSION environ = v) ∧
    (environ "ENVIRONMENT" = none → ENVIRONMENT environ = "development") ∧
    (∀ v, environ "ENVIRONMENT" = some v → ENVIRONMENT environ = v) ∧
    (environ "CLOUD_PROVIDER" = none → CLOUD_PROVIDER environ = "unknown") ∧
    (∀ v, environ "CLOUD_PROVIDER" = some v → CLOUD_PROVIDER environ = v) := by
  refine ⟨fun h => ?_, fun v h => ?_, fun h => ?_, fun v h => ?_, fun h => ?_, fun v h => ?_⟩ <;>
    simp [APP_VERSION, ENVIRONMENT, CLOUD_PROVIDER, os_getenv, h]

/-- Witness for C5 on a concrete environment where only `ENVIRONMENT` is set. -/
theorem env_defaults_witness :
    environ0 "APP_VERSION" = none ∧ APP_VERSION environ0 = "1.0.0" ∧
    environ0 "ENVIRONMENT" = some "staging" ∧ ENVIRONMENT environ0 = "staging" ∧
    environ0 "CLOUD_PROVIDER" = none ∧ CLOUD_PROVIDER environ0 = "unknown" := by
  refine ⟨rfl, (env_defaults environ0).1 rfl, rfl,
    (env_defaults environ0).2.2.2.1 "staging" rfl, rfl,
    (env_defaults environ0).2.2.2.2.1 rfl⟩

/-- Claim C6: every `/` response has status 200 and a body holding exactly the
fields `message`, `version`, `docs`, `health`, with `version` the configured
`APP_VERSION`, `docs = "/docs"` and `health = "/health"`. -/
theorem root_response_fields (st : StartupState) (q : RequestEnv) :
    (app_handle st q Route.root none).1 = 200 ∧
    ((app_handle st q Route.root none).2).keys = ["message", "version", "docs", "health"] ∧
    (app_handle st q Route.root none).2.getField? "version" =
      some (Json.str (APP_VERSION st.environ)) ∧
    (app_handle st q Route.root none).2.getField? "docs" = some (Json.str "/docs") ∧
    (app_handle st q Route.root none).2.getField? "health" = some (Json.str "/health") := by
  exact ⟨rfl, rfl, rfl, rfl, rfl⟩

/-- Claim C7: every `/ready` response is status 200 with body exactly
`{"status": "ready"}`, independent of configuration, hostname and time. -/
theorem ready_response (st : StartupState) (q : RequestEnv) :
    app_handle st q Route.ready none = (200, Json.obj [("status", Json.str "ready")]) := rfl

/-- Claim C8: `/health` and `/metadata` report the OS hostname observed at the
time of each request, so two requests observing different OS hostnames get
different `hostname` fields. -/
theorem hostname_live_lookup (st : StartupState) (q1 q2 : RequestEnv) :
    (health_check st q1).hostname = q1.hostname ∧
    (instance_metadata st q1).getField? "hostname" = some (Json.str q1.hostname) ∧
    (q1.hostname ≠ q2.hostname →
      (health_check st q1).hostname ≠ (health_check st q2).hostname ∧
      (instance_metadata st q1).getField? "hostname" ≠
        (instance_metadata st q2).getField? "hostname") := by
  refine ⟨rfl, rfl, fun h => ⟨h, fun heq => ?_⟩⟩
  apply h
  simpa [instance_metadata, Json.getField?] using heq

/-- Witness for C8 at two concrete requests with different OS hostnames. -/
theorem hostname_live_lookup_witness :
    (health_check st0 req0).hostname = req0.hostname ∧
    (instance_metadata st0 req0).getField? "hostname" = some (Json.str req0.hostname) ∧
    ((health_check st0 req0).hostname ≠ (health_check st0 req1).hostname ∧
     (instance_metadata st0 req0).getField? "hostname" ≠
       (instance_metadata st0 req1).getField? "hostname") := by
  have h := hostname_live_lookup st0 req0 req1
  have hne : req0.hostname ≠ req1.hostname := by simp [req0, req1]
  exact ⟨h.1, h.2.1, h.2.2 hne⟩

/-- Claim C9: the `timestamp` of every `/health` response and every 500 error
response is the request-time UTC clock reading rendered in ISO-8601, and the
rendering carries no timezone designator suffix. -/
theorem timestamps_utc_iso (st : StartupState) (q : RequestEnv) (exc : String) :
    (health_check st q).timestamp = q.utcNow.isoformat ∧
    (global_exception_handler q exc).content.getField? "timestamp" =
      some (Json.str q.utcNow.isoformat) ∧
    hasTzOffsetSuffix q.utcNow.isoformat = false := by
  exact ⟨rfl, rfl, isoformat_no_tz q.utcNow⟩

/-- Claim C10: every `/health` response has `status = "healthy"`, independent of
configuration, hostname and elapsed time. -/
theorem health_status_healthy (st : StartupState) (q : RequestEnv) :
    (health_check st q).status = "healthy" := rfl

/-- Claim C2 counterexample: it is not true that every unhandled exception
yields a non-empty `detail`; an exception whose message is the empty string
(Python `str(exc) == ""`, e.g. `Exception()`) yields `detail = ""`. -/
theorem error_detail_can_be_empty :
    ¬ (∀ exc : String, ∃ s : String,
        (app_handle st0 req0 Route.root (some exc)).2.getField? "detail" =
          some (Json.str s) ∧ s ≠ "") := by
  intro h
  obtain ⟨s, hs, hne⟩ := h ""
  have hs0 : (app_handle st0 req0 Route.root (some "")).2.getField? "detail" =
      some (Json.str "") := rfl
  rw [hs0] at hs
  exact hne (Json.str.inj (Option.some.inj hs)).symm

/-- Claim C2 (amended): an unhandled exception on any route yields a 500
response whose `error` is `"Internal Server Error"`, whose `detail` is exactly
the exception's message (empty iff the message is empty), and which carries a
`timestamp`; the handler is total, so the process does not crash. -/
theorem error_handler_response (st : StartupState) (q : RequestEnv) (route : Route)
    (exc : String) :
    (app_handle st q route (some exc)).1 = 500 ∧
    (app_handle st q route (some exc)).2.getField? "error" =
      some (Json.str "Internal Server Error") ∧
    (app_handle st q route (some exc)).2.getField? "detail" = some (Json.str exc) ∧
    (app_handle st q route (some exc)).2.getField? "timestamp" =
      some (Json.str q.utcNow.isoformat) := by
  exact ⟨rfl, rfl, rfl, rfl⟩
